import Mathlib

/-!
Shallow embedding of `src/clippybot/__main__.py` (twitch-clippybot):
the bot-state store (enabled flag + ignore list + its lock), the guard
decorators, the chat handlers, and the ignore-list persistence functions.
Python strings are sequences of code points, so `str.startswith` is
embedded as a code-point-prefix test on `String.data`; Python
`list.remove` removes the first occurrence and raises `ValueError` when
the element is absent, embedded with `List.erase` and an explicit error
outcome. The spellchecker library is external to the repository and is
modelled as an abstract structure of its two observable operations.
-/

namespace Clippybot

/-- Embedding of the Python exceptions the handlers can raise. -/
inductive PyError where
  | runtimeError
  | valueError
  deriving DecidableEq, Repr

/-- Twitch chat user payload: the fields the guards and handlers read.
`badges` is `None` or a dict; the broadcaster check reads key "broadcaster". -/
structure ChatUser where
  id : String
  displayName : String
  mod : Bool
  badges : Option (List (String × String))
  deriving DecidableEq, Repr

/-- Inbound plain chat message payload. -/
structure ChatMessage where
  text : String
  user : ChatUser
  deriving DecidableEq, Repr

/-- Inbound chat command payload. -/
structure ChatCommand where
  text : String
  user : ChatUser
  deriving DecidableEq, Repr

/-- The module-level mutable state of the bot process: `IGNORE_USERS`
(a Python list, duplicates possible), `BOT_ENABLE` (threading.Event),
and whether `IGNORE_USERS_LCK` is currently held. -/
structure BotState where
  ignoreUsers : List String
  botEnable : Bool
  lockHeld : Bool
  deriving DecidableEq, Repr

/-- Observable result of running one handler on one event: the state
afterwards, the replies sent through the transport, the exception that
escaped the handler (if any), whether the spellcheck engine was invoked,
and whether the wrapped handler body ran at all. -/
structure Outcome where
  state : BotState
  replies : List String
  exn : Option PyError
  spellcheckInvoked : Bool := false
  handlerRan : Bool := false
  deriving DecidableEq, Repr

/-- Embedding of Python `s.startswith(pre)`: code-point-prefix test. -/
def pyStartswith (s pre : String) : Bool :=
  pre.data.isPrefixOf s.data

/-- The condition of the `user_is_mod` decorator, as written in the
source: `((user.badges is not None) and (user.badges.get("broadcaster")
is not None)) or user.mod`. -/
def mod_or_broadcaster (user : ChatUser) : Bool :=
  (match user.badges with
   | some badges => (badges.lookup "broadcaster").isSome
   | none => false) || user.mod

/-- Decorator `bot_enabled`: raises RuntimeError (no reply) unless the
`BOT_ENABLE` event is set; otherwise calls the wrapped handler. -/
def bot_enabled {E : Type} (func : BotState → E → Outcome) :
    BotState → E → Outcome := fun st event =>
  if st.botEnable then func st event
  else { state := st, replies := [], exn := some .runtimeError }

/-- Decorator `user_is_mod`: if the actor is neither broadcaster nor
mod, replies with the fixed message and raises RuntimeError; the wrapped
handler does not run. `user` extracts the ChatUser from the event. -/
def user_is_mod {E : Type} (user : E → ChatUser)
    (func : BotState → E → Outcome) : BotState → E → Outcome := fun st event =>
  if mod_or_broadcaster (user event) then func st event
  else { state := st
         replies := ["You must be a mod to use that command!"]
         exn := some .runtimeError }

/-- Decorator `user_not_ignored`: raises RuntimeError (no reply) when
the actor id is in `IGNORE_USERS`; otherwise calls the wrapped handler. -/
def user_not_ignored {E : Type} (user : E → ChatUser)
    (func : BotState → E → Outcome) : BotState → E → Outcome := fun st event =>
  if st.ignoreUsers.contains (user event).id then
    { state := st, replies := [], exn := some .runtimeError }
  else func st event

/-- Decorator `not_command`: when the message text starts with "!" the
handler is skipped (logged, returns None, no reply, no exception). -/
def not_command (func : BotState → ChatMessage → Outcome) :
    BotState → ChatMessage → Outcome := fun st message =>
  if pyStartswith message.text "!" then
    { state := st, replies := [], exn := none }
  else func st message

/-- Abstract model of the external `pyspellchecker` library object:
`unknown` classifies tokens against the frequency dictionary (a Python
set, modelled as the returned list of distinct unknown tokens), and
`correction` returns the single best candidate or `None`. -/
structure SpellChecker where
  unknown : List String → List String
  correction : String → Option String

/-- Body of `on_message`: split the text on single spaces, collect the
unknown tokens; when there is at least one, build the correction entries
(skipping tokens whose correction is None), join them with ", ", and
reply unless the joined string is empty. -/
def on_message_body (sc : SpellChecker) (st : BotState)
    (message : ChatMessage) : Outcome :=
  let message_words := message.text.splitOn " "
  let misspelled := sc.unknown message_words
  if misspelled.length > 0 then
    let corrections := misspelled.filterMap fun word =>
      (sc.correction word).map fun correction =>
        word ++ " (did you mean \"" ++ correction ++ "\"?)"
    let corrections := String.intercalate ", " corrections
    if corrections.length == 0 then
      { state := st, replies := [], exn := none
        spellcheckInvoked := true, handlerRan := true }
    else
      { state := st
        replies := ["📎 Uh-oh, looks like you misspelled " ++ corrections
          ++ " Would you like help with that? 📎"]
        exn := none, spellcheckInvoked := true, handlerRan := true }
  else
    { state := st, replies := [], exn := none
      spellcheckInvoked := true, handlerRan := true }

/-- Handler `on_message` with its decorator stack
`@bot_enabled @not_command @user_not_ignored`. -/
def on_message (sc : SpellChecker) : BotState → ChatMessage → Outcome :=
  bot_enabled (not_command (user_not_ignored (fun m => m.user)
    (on_message_body sc)))

/-- Body of `on_enable`: reply, then set `BOT_ENABLE`. -/
def on_enable_body (st : BotState) (_cmd : ChatCommand) : Outcome :=
  { state := { st with botEnable := true }
    replies := ["📎 Clippy will start being anoying now! OpieOP 📎"]
    exn := none, handlerRan := true }

/-- Handler `on_enable` with its decorator `@user_is_mod`. -/
def on_enable : BotState → ChatCommand → Outcome :=
  user_is_mod (fun c => c.user) on_enable_body

/-- Body of `on_ignore`: acquire the lock, append the invoking user id
to `IGNORE_USERS` (unconditionally, duplicates possible), release the
lock, reply. -/
def on_ignore_body (st : BotState) (cmd : ChatCommand) : Outcome :=
  let st := { st with lockHeld := true }
  let st := { st with ignoreUsers := st.ignoreUsers ++ [cmd.user.id] }
  let st := { st with lockHeld := false }
  { state := st
    replies := ["📎 Ok! I won\x27t bother you anymore! :) 📎"]
    exn := none, handlerRan := true }

/-- Handler `on_ignore` with its decorator `@bot_enabled`. -/
def on_ignore : BotState → ChatCommand → Outcome :=
  bot_enabled on_ignore_body

/-- Body of `on_listen`: acquire the lock, then `IGNORE_USERS.remove(id)`.
When the id is present the first occurrence is removed, the lock is
released and the confirmation reply is sent; when it is absent,
`list.remove` raises ValueError, so the release and the reply never
execute and the lock stays held. -/
def on_listen_body (st : BotState) (cmd : ChatCommand) : Outcome :=
  let st := { st with lockHeld := true }
  if st.ignoreUsers.contains cmd.user.id then
    let st := { st with ignoreUsers := st.ignoreUsers.erase cmd.user.id }
    let st := { st with lockHeld := false }
    { state := st
      replies := ["📎 Ok! I\x27ll be sure to suggest corrections for you again! :) 📎"]
      exn := none, handlerRan := true }
  else
    { state := st, replies := [], exn := some .valueError, handlerRan := true }

/-- Handler `on_listen` with its decorator `@bot_enabled`. -/
def on_listen : BotState → ChatCommand → Outcome :=
  bot_enabled on_listen_body

/-- Ordered snapshot of the ignore list (what the spec calls
`listIgnored()`). -/
def listIgnored (st : BotState) : List String :=
  st.ignoreUsers

/-- A chat command event by a plain (non-mod) user with the given id,
used to drive the ignore/listen operations. -/
def mkCmd (uid : String) : ChatCommand :=
  { text := "", user := { id := uid, displayName := "", mod := false, badges := none } }

/-- One ignore or listen operation by the user with the given id. -/
inductive OpAction where
  | ignoreOp (uid : String)
  | listenOp (uid : String)
  deriving DecidableEq, Repr

/-- State reached after one ignore/listen operation (replies and
exceptions discarded, state kept). -/
def applyOp (st : BotState) : OpAction → BotState
  | .ignoreOp uid => (on_ignore st (mkCmd uid)).state
  | .listenOp uid => (on_listen st (mkCmd uid)).state

/-- State reached after a sequence of ignore/listen operations. -/
def runOps (st : BotState) : List OpAction → BotState
  | [] => st
  | op :: ops => runOps (applyOp st op) ops

/-- Holds when every ignore operation in the sequence is issued for an
id that is absent from the ignore list at the moment it is applied
(operations skipped by the disabled guard are unconstrained). -/
def fresh_adds_only (st : BotState) : List OpAction → Bool
  | [] => true
  | .ignoreOp uid :: ops =>
      (!st.botEnable || !st.ignoreUsers.contains uid)
        && fresh_adds_only (applyOp st (.ignoreOp uid)) ops
  | .listenOp uid :: ops => fresh_adds_only (applyOp st (.listenOp uid)) ops

/-- Minimal JSON value model for the ignore-list file. -/
inductive Json where
  | str (s : String)
  | arr (xs : List Json)
  | num (n : Int)

/-- Content of the ignore-list file path as the loader sees it:
absent, present but not parseable as JSON, or a parsed JSON object
(a dict from keys to JSON values). -/
inductive FileContent where
  | missing
  | invalid
  | object (kvs : List (String × Json))

/-- Result of `load_ignore_users`: the returned Python value together
with whether the missing-file warning was logged, or the JSON decode
error that propagates out of the function. -/
inductive LoadOutcome where
  | ok (value : Json) (warned : Bool)
  | decodeError

/-- Embedding of `load_ignore_users`: a missing file is caught
(warning logged, `[]` returned); a present-but-unparseable file makes
`json.load` raise, which is not caught; otherwise `data.get("ignore-users")`
is returned, with `[]` substituted for an absent key. -/
def load_ignore_users : FileContent → LoadOutcome
  | .missing => .ok (Json.arr []) true
  | .invalid => .decodeError
  | .object kvs => .ok ((kvs.lookup "ignore-users").getD (Json.arr [])) false

/-- Embedding of `save_ignore_users`: overwrite the file with the JSON
serialization of the dict with the single key "ignore-users". -/
def save_ignore_users (ignore_users : List String) : FileContent :=
  .object [("ignore-users", Json.arr (ignore_users.map Json.str))]

/-- Reads a JSON array of strings back as the list of those strings
(None when some element is not a string). -/
def jsonStrings : List Json → Option (List String)
  | [] => some []
  | Json.str s :: rest => (jsonStrings rest).map (fun l => s :: l)
  | _ => none

/-- Spec-side definition (refinement target for C4), following the
specification wording for the SpellcheckEngine: split on whitespace,
classify tokens as unknown, query the single best correction for each,
and exclude tokens with no candidate from the result entirely. -/
def spec_check (sc : SpellChecker) (text : String) : List (String × String) :=
  (sc.unknown (text.splitOn " ")).filterMap fun w =>
    (sc.correction w).map fun c => (w, c)

/-- Spec-side rendering (refinement target for C4): join the
suggestion entries with ", " in the specified format. -/
def spec_render (suggestions : List (String × String)) : String :=
  String.intercalate ", "
    (suggestions.map fun s => s.1 ++ " (did you mean \"" ++ s.2 ++ "\"?)")

/-- A dictionary fixture for witnesses: "hello" and "world" are known;
"helo" corrects to "hello", other unknown tokens have no candidate. -/
def sc_fixture : SpellChecker :=
  { unknown := fun ws => (ws.filter fun w => w != "hello" && w != "world").eraseDups
    correction := fun w => if w == "helo" then some "hello" else none }

/-- An enabled state with an empty ignore list, for witnesses. -/
def st_enabled : BotState :=
  { ignoreUsers := [], botEnable := true, lockHeld := false }

/-- A plain chat message containing misspelled tokens, for witnesses. -/
def msg_fixture : ChatMessage :=
  { text := "helo wrld", user := (mkCmd "u1").user }

/-- Two lemmas bridging Python string primitives.

String length zero means the empty string. -/
theorem length_zero_iff_empty (s : String) : s.length = 0 ↔ s = "" := by
  cases s with
  | mk data =>
    constructor
    · intro h
      have hd : data = [] := List.length_eq_zero.mp h
      simp [hd]
    · intro h
      simp [h]

/-- If a list extended by one element is a prefix, so is the singleton
of its head. -/
theorem isPrefixOf_head {a : Char} {p l : List Char}
    (h : (a :: p).isPrefixOf l = true) : [a].isPrefixOf l = true := by
  cases l with
  | nil => simp [List.isPrefixOf] at h
  | cons b l =>
    simp [List.isPrefixOf] at h ⊢
    exact h.1

/-- A text starting with the configured command prefix "!c " also
starts with "!", the character the `not_command` guard tests. -/
theorem pyStartswith_bang_of_bangc {s : String}
    (h : pyStartswith s "!c " = true) : pyStartswith s "!" = true := by
  have h2 : (('!' : Char) :: ('c' :: [' '])).isPrefixOf s.data = true := h
  exact isPrefixOf_head h2

/-- C1: the source crashes where the claim requires a reply. Invoking
the listen (unignore) handler in the enabled state with an empty ignore
list produces no reply, lets a ValueError escape, and leaves the lock
held; there is no user-visible "not ignored" message. -/
theorem listen_absent_crashes :
    on_listen { ignoreUsers := [], botEnable := true, lockHeld := false } (mkCmd "u1") =
      { state := { ignoreUsers := [], botEnable := true, lockHeld := true }
        replies := []
        exn := some PyError.valueError
        handlerRan := true } := rfl

/-- C2: when the enabled flag is false, processing any inbound plain
chat message produces no reply, whatever the text and dictionary. -/
theorem disabled_message_no_reply (sc : SpellChecker) (st : BotState)
    (msg : ChatMessage) (h : st.botEnable = false) :
    (on_message sc st msg).replies = [] := by
  simp [on_message, bot_enabled, h]

/-- Witness for C2 at a disabled state and a message with misspellings. -/
theorem disabled_message_no_reply_witness :
    ({ ignoreUsers := [], botEnable := false, lockHeld := false } : BotState).botEnable = false ∧
    (on_message sc_fixture { ignoreUsers := [], botEnable := false, lockHeld := false }
      { text := "helo wrld", user := (mkCmd "u1").user }).replies = [] :=
  ⟨rfl, disabled_message_no_reply sc_fixture _ _ rfl⟩

/-- C3 counterexample: with prior ignore list ["a", "x", "b"] (the bot
enabled), user "x" running ignore then listen does not restore the
snapshot: append puts a second "x" at the end and remove drops the
first occurrence, giving ["a", "b", "x"]. -/
theorem ignore_listen_roundtrip_fails :
    listIgnored ((on_listen
      ((on_ignore { ignoreUsers := ["a", "x", "b"], botEnable := true, lockHeld := false }
        (mkCmd "x")).state) (mkCmd "x")).state) ≠
    listIgnored { ignoreUsers := ["a", "x", "b"], botEnable := true, lockHeld := false } := by
  decide

/-- C3 amended: when the invoking user id is not already in the prior
snapshot, ignore followed by listen restores the `listIgnored` snapshot
exactly. -/
theorem ignore_listen_roundtrip (st : BotState) (uid : String)
    (h : uid ∉ listIgnored st) :
    listIgnored ((on_listen ((on_ignore st (mkCmd uid)).state) (mkCmd uid)).state) =
      listIgnored st := by
  cases hb : st.botEnable with
  | false =>
    simp [on_ignore, on_listen, bot_enabled, hb, listIgnored]
  | true =>
    rw [listIgnored] at h
    simp [on_ignore, on_listen, bot_enabled, on_ignore_body, on_listen_body,
      mkCmd, hb, listIgnored, h]
    rw [List.erase_append_right _ h]
    simp

/-- Witness for C3 amended at a state not containing the id. -/
theorem ignore_listen_roundtrip_witness :
    "x" ∉ listIgnored { ignoreUsers := ["a", "b"], botEnable := true, lockHeld := false } ∧
    listIgnored ((on_listen
      ((on_ignore { ignoreUsers := ["a", "b"], botEnable := true, lockHeld := false }
        (mkCmd "x")).state) (mkCmd "x")).state) =
    listIgnored { ignoreUsers := ["a", "b"], botEnable := true, lockHeld := false } :=
  ⟨by decide, ignore_listen_roundtrip _ "x" (by decide)⟩

/-- The Nat-beq emptiness test the source performs on the joined string
agrees with equality to the empty string. -/
theorem if_join_empty {α : Type} (J : String) (x y : α) :
    (if J.length == 0 then x else y) = (if J = "" then x else y) := by
  by_cases hJ : J = ""
  · simp [hJ]
  · have hl : J.length ≠ 0 := fun hl => hJ ((length_zero_iff_empty J).mp hl)
    simp [hJ, hl]

/-- C4: on the guarded spellcheck path, the reply matches the spec-side
pipeline: unknown tokens with no correction candidate are excluded (via
`spec_check`), entries are rendered and joined with ", " (via
`spec_render`), and when the rendered string is empty no reply is sent,
even when unknown tokens existed. -/
theorem message_reply_matches_spec (sc : SpellChecker) (st : BotState)
    (msg : ChatMessage) (h1 : st.botEnable = true)
    (h2 : pyStartswith msg.text "!" = false)
    (h3 : msg.user.id ∉ st.ignoreUsers) :
    (on_message sc st msg).replies =
      (if spec_render (spec_check sc msg.text) = "" then []
       else ["📎 Uh-oh, looks like you misspelled "
         ++ spec_render (spec_check sc msg.text)
         ++ " Would you like help with that? 📎"]) := by
  have h3c : st.ignoreUsers.contains msg.user.id = false := by
    rw [Bool.eq_false_iff]
    intro hc
    exact h3 (List.elem_iff.mp hc)
  simp only [on_message, bot_enabled, not_command, user_not_ignored,
    on_message_body, spec_check, spec_render, h1, h2, h3c, if_true, if_false,
    Bool.false_eq_true, reduceIte]
  rw [List.map_filterMap]
  simp only [Option.map_map, Function.comp_def]
  cases hms : sc.unknown (msg.text.splitOn " ") with
  | nil => simp [String.intercalate]
  | cons w ws =>
    simp only [List.length_cons, Nat.zero_lt_succ, if_true, gt_iff_lt,
      apply_ite (fun o : Outcome => o.replies)]
    rw [if_join_empty]

/-- Witness for C4 on an enabled state, a non-command message with two
misspelled tokens, and the fixture dictionary. -/
theorem message_reply_matches_spec_witness :
    st_enabled.botEnable = true ∧
    pyStartswith msg_fixture.text "!" = false ∧
    msg_fixture.user.id ∉ st_enabled.ignoreUsers ∧
    (on_message sc_fixture st_enabled msg_fixture).replies =
      (if spec_render (spec_check sc_fixture msg_fixture.text) = "" then []
       else ["📎 Uh-oh, looks like you misspelled "
         ++ spec_render (spec_check sc_fixture msg_fixture.text)
         ++ " Would you like help with that? 📎"]) :=
  ⟨rfl, by decide, by decide,
    message_reply_matches_spec sc_fixture st_enabled msg_fixture rfl
      (by decide) (by decide)⟩

/-- C5: a non-mod, non-broadcaster actor invoking enable gets exactly
the fixed mod-required reply, the handler body does not run
(`handlerRan = false`), and the state, hence the enabled flag, is
unchanged. -/
theorem nonmod_enable_rejected (st : BotState) (cmd : ChatCommand)
    (h : mod_or_broadcaster cmd.user = false) :
    on_enable st cmd =
      { state := st
        replies := ["You must be a mod to use that command!"]
        exn := some PyError.runtimeError } := by
  simp [on_enable, user_is_mod, h]

/-- Witness for C5 with a plain user and an enabled state. -/
theorem nonmod_enable_rejected_witness :
    mod_or_broadcaster (mkCmd "u1").user = false ∧
    on_enable st_enabled (mkCmd "u1") =
      { state := st_enabled
        replies := ["You must be a mod to use that command!"]
        exn := some PyError.runtimeError } :=
  ⟨rfl, nonmod_enable_rejected st_enabled (mkCmd "u1") rfl⟩

/-- C6 counterexample: from the duplicate-free empty ignore list, user
"x" issuing ignore twice leaves the ignore list with a duplicate entry. -/
theorem duplicate_ignore_breaks_nodup :
    ¬ (runOps { ignoreUsers := [], botEnable := true, lockHeld := false }
        [OpAction.ignoreOp "x", OpAction.ignoreOp "x"]).ignoreUsers.Nodup := by
  decide

/-- C6 amended: from a duplicate-free state, the ignore list stays
duplicate-free under any sequence of ignore/listen operations in which
each ignore that actually runs targets an id absent at that moment. -/
theorem ignore_listen_preserve_nodup (st : BotState) (ops : List OpAction)
    (h1 : st.ignoreUsers.Nodup) (h2 : fresh_adds_only st ops = true) :
    (runOps st ops).ignoreUsers.Nodup := by
  induction ops generalizing st with
  | nil => exact h1
  | cons op ops ih =>
    cases op with
    | ignoreOp uid =>
      rw [fresh_adds_only, Bool.and_eq_true] at h2
      obtain ⟨hc, hrest⟩ := h2
      rw [runOps]
      refine ih _ ?_ hrest
      cases hb : st.botEnable with
      | false => simpa [applyOp, on_ignore, bot_enabled, hb] using h1
      | true =>
        rw [hb] at hc
        simp only [Bool.not_true, Bool.false_or] at hc
        have huid : uid ∉ st.ignoreUsers := by
          intro hm
          have hcc : st.ignoreUsers.contains uid = true := List.elem_iff.mpr hm
          rw [hcc] at hc
          simp at hc
        simp [applyOp, on_ignore, bot_enabled, on_ignore_body, mkCmd, hb,
          List.nodup_append, h1, huid]
    | listenOp uid =>
      rw [fresh_adds_only] at h2
      rw [runOps]
      refine ih _ ?_ h2
      cases hb : st.botEnable with
      | false => simpa [applyOp, on_listen, bot_enabled, hb] using h1
      | true =>
        by_cases hc : uid ∈ st.ignoreUsers
        · simpa [applyOp, on_listen, bot_enabled, on_listen_body, mkCmd, hb, hc]
            using h1.erase uid
        · simpa [applyOp, on_listen, bot_enabled, on_listen_body, mkCmd, hb, hc]
            using h1

/-- Witness for C6 amended: one fresh ignore then one listen. -/
theorem ignore_listen_preserve_nodup_witness :
    ({ ignoreUsers := ["a"], botEnable := true, lockHeld := false } : BotState).ignoreUsers.Nodup ∧
    fresh_adds_only { ignoreUsers := ["a"], botEnable := true, lockHeld := false }
      [OpAction.ignoreOp "x", OpAction.listenOp "a"] = true ∧
    (runOps { ignoreUsers := ["a"], botEnable := true, lockHeld := false }
      [OpAction.ignoreOp "x", OpAction.listenOp "a"]).ignoreUsers.Nodup :=
  ⟨by decide, by decide,
    ignore_listen_preserve_nodup _ _ (by decide) (by decide)⟩

/-- C7: a message whose text starts with the configured command prefix
"!c " never reaches the spellcheck engine and produces no reply. -/
theorem command_message_no_spellcheck (sc : SpellChecker) (st : BotState)
    (msg : ChatMessage) (h : pyStartswith msg.text "!c " = true) :
    (on_message sc st msg).spellcheckInvoked = false ∧
    (on_message sc st msg).replies = [] := by
  have hbang : pyStartswith msg.text "!" = true := pyStartswith_bang_of_bangc h
  cases hb : st.botEnable with
  | false => simp [on_message, bot_enabled, hb]
  | true => simp [on_message, bot_enabled, not_command, hb, hbang]

/-- Witness for C7 on a message spelled like a command invocation. -/
theorem command_message_no_spellcheck_witness :
    pyStartswith "!c about" "!c " = true ∧
    (on_message sc_fixture st_enabled
      { text := "!c about", user := (mkCmd "u1").user }).spellcheckInvoked = false ∧
    (on_message sc_fixture st_enabled
      { text := "!c about", user := (mkCmd "u1").user }).replies = [] :=
  ⟨by decide,
    (command_message_no_spellcheck sc_fixture st_enabled _ (by decide)).1,
    (command_message_no_spellcheck sc_fixture st_enabled _ (by decide)).2⟩

/-- C8: loading a missing ignore-list file returns the empty list with
the warning logged; loading a present-but-unparseable file propagates
the decode error (fatal at startup) instead of returning a result. -/
theorem load_missing_empty_invalid_fatal :
    load_ignore_users FileContent.missing = LoadOutcome.ok (Json.arr []) true ∧
    load_ignore_users FileContent.invalid = LoadOutcome.decodeError :=
  ⟨rfl, rfl⟩

/-- C9: loading the file produced by save returns exactly the saved
sequence of ids (through the one-key "ignore-users" JSON object), with
no warning. -/
theorem save_load_roundtrip (L : List String) :
    load_ignore_users (save_ignore_users L) =
      LoadOutcome.ok (Json.arr (L.map Json.str)) false ∧
    jsonStrings (L.map Json.str) = some L := by
  refine ⟨rfl, ?_⟩
  induction L with
  | nil => rfl
  | cons a l ih => simp [jsonStrings, ih]

/-- C10: when listen is invoked (bot enabled) by a user whose id is not
in the ignore list, the lock is left held on the error exit, the ignore
list is unchanged, no reply is sent, and a ValueError escapes. -/
theorem listen_absent_leaks_lock (st : BotState) (cmd : ChatCommand)
    (h1 : st.botEnable = true) (h2 : cmd.user.id ∉ st.ignoreUsers) :
    (on_listen st cmd).state.lockHeld = true ∧
    (on_listen st cmd).state.ignoreUsers = st.ignoreUsers ∧
    (on_listen st cmd).replies = [] ∧
    (on_listen st cmd).exn = some PyError.valueError := by
  simp [on_listen, bot_enabled, on_listen_body, h1, h2]

/-- Witness for C10: a user not on the (non-empty) ignore list. -/
theorem listen_absent_leaks_lock_witness :
    ({ ignoreUsers := ["a"], botEnable := true, lockHeld := false } : BotState).botEnable = true ∧
    (mkCmd "u2").user.id ∉
      ({ ignoreUsers := ["a"], botEnable := true, lockHeld := false } : BotState).ignoreUsers ∧
    ((on_listen { ignoreUsers := ["a"], botEnable := true, lockHeld := false }
        (mkCmd "u2")).state.lockHeld = true ∧
      (on_listen { ignoreUsers := ["a"], botEnable := true, lockHeld := false }
        (mkCmd "u2")).state.ignoreUsers = ["a"] ∧
      (on_listen { ignoreUsers := ["a"], botEnable := true, lockHeld := false }
        (mkCmd "u2")).replies = [] ∧
      (on_listen { ignoreUsers := ["a"], botEnable := true, lockHeld := false }
        (mkCmd "u2")).exn = some PyError.valueError) :=
  ⟨rfl, by decide,
    listen_absent_leaks_lock _ (mkCmd "u2") rfl (by decide)⟩

end Clippybot
